import Mathlib

/-!
Shallow embedding of src/PolyjuiceGenerator/PolyjuiceGenerator.py.

The repository is a thin orchestration script: a generator class that
loads a column of sentences from a csv file, asks an external
perturbation model for one candidate edit per sentence, and writes the
collected edits to a csv file.

Modelling choices:
- A csv table is a list of named columns, each a list of cell strings.
- The filesystem is a function from paths to optional tables; writing a
  file is a pointwise update.
- The external Polyjuice model is a parameter
  perturb : String -> Nat -> List String
  (sentence and requested number of perturbations in, candidate list out);
  the code calls it with the count 1.
- Python runtime failures (AttributeError on None.append, KeyError on a
  missing column, TypeError from zip of None, ValueError from a DataFrame
  of None) are modelled with Except; sys.exit(1) paths are a distinct
  constructor of the result type since they are not exceptions the caller
  sees.
- Console output that the claims mention (the debug-mode pairs) is
  modelled as a list of printed lines; informational progress prints are
  not modelled.
-/

/-- A parsed csv table: named columns with their cells in row order. -/
abbrev Table := List (String × List String)

/-- Column lookup, as pandas df[col] on our table model. -/
def Table.lookupCol (t : Table) (c : String) : Option (List String) :=
  (t.find? (fun p => p.1 == c)).map Prod.snd

/-- The filesystem: paths to csv tables; none means the file does not exist. -/
abbrev FS := String → Option Table

/-- Writing a table to a path, overwriting whatever was there. -/
def FS.write (fs : FS) (path : String) (t : Table) : FS :=
  fun q => if q = path then some t else fs q

/-- The state of a PolyjuiceGenerator object after __init__:
sentences, cuda, dest_csv, counter_sentences, in source order.
(The model handle itself is external and carried as a function parameter
by the operations.) -/
structure PolyjuiceGenerator where
  sentences : List String
  cuda : Bool
  dest_csv : String
  counter_sentences : Option (List String)
  deriving Repr, DecidableEq

/-- The outcome of running __init__: an exit(1) after a printed error, an
uncaught exception, or a constructed object. -/
inductive InitResult where
  | exited (code : Nat) (msg : String)
  | raised (exc : String)
  | ok (g : PolyjuiceGenerator)
  deriving Repr, DecidableEq

/-- __init__(source_csv, source_col, dest_csv, cuda), lines 17-41 of the
source: validate source_csv is given and the file exists, validate
source_col is given, load the column (KeyError if absent), pick the
device (explicit flag, else torch.cuda.is_available()), default the
destination path, and set counter_sentences to None. -/
def PolyjuiceGenerator.init (fs : FS) (cuda_available : Bool)
    (source_csv source_col dest_csv : Option String) (cuda : Option Bool) :
    InitResult :=
  match source_csv with
  | none => .exited 1 "[ERROR]: source_csv must be specified"
  | some src =>
    match fs src with
    | none => .exited 1 ("[ERROR]: file " ++ src ++ " does not exist")
    | some table =>
      match source_col with
      | none => .exited 1 "[ERROR]: source_col must be specified"
      | some col =>
        match table.lookupCol col with
        | none => .raised ("KeyError: " ++ col)
        | some sents =>
          .ok { sentences := sents,
                cuda := (match cuda with | none => cuda_available | some b => b),
                dest_csv := (match dest_csv with
                             | none => "polyjuice_edits.csv"
                             | some d => d),
                counter_sentences := none }

/-- The expression perturbations[0] if perturbations else s from line 54. -/
def selectEdit (perturbations : List String) (s : String) : String :=
  match perturbations with
  | [] => s
  | p :: _ => p

/-- Python list.append on an optional list: appending to None raises
AttributeError, appending to a list extends it in place. -/
def pyAppend (xs : Option (List String)) (x : String) :
    Except String (Option (List String)) :=
  match xs with
  | none => .error "AttributeError: NoneType object has no attribute append"
  | some l => .ok (some (l ++ [x]))

/-- The loop of generate_counterfactuals, lines 52-54: for each sentence,
call the model with num_perturbations=1 and append the first candidate
(or the original sentence when the candidate list is empty) to
counter_sentences. -/
def generateLoop (perturb : String → Nat → List String) :
    List String → Option (List String) → Except String (Option (List String))
  | [], acc => .ok acc
  | s :: rest, acc =>
    match pyAppend acc (selectEdit (perturb s 1) s) with
    | .error e => .error e
    | .ok acc2 => generateLoop perturb rest acc2

/-- The list of edits the loop selects for a sentence list: one call to
the model with count 1 per sentence, first candidate or the original. -/
def selectedEdits (perturb : String → Nat → List String)
    (ss : List String) : List String :=
  ss.map (fun s => selectEdit (perturb s 1) s)

/-- generate_counterfactuals, lines 43-56: run the loop over
self.sentences starting from the current self.counter_sentences and
return self with the updated field. -/
def PolyjuiceGenerator.generate_counterfactuals
    (perturb : String → Nat → List String) (g : PolyjuiceGenerator) :
    Except String PolyjuiceGenerator :=
  match generateLoop perturb g.sentences g.counter_sentences with
  | .error e => .error e
  | .ok cs => .ok { g with counter_sentences := cs }

/-- export_to_csv, lines 58-72: build a one-column DataFrame with header
counter_sents from self.counter_sentences and write it to self.dest_csv
with index=False, returning self. A DataFrame built from None raises
ValueError. -/
def PolyjuiceGenerator.export_to_csv (g : PolyjuiceGenerator) (fs : FS) :
    Except String (FS × PolyjuiceGenerator) :=
  match g.counter_sentences with
  | none => .error "ValueError: DataFrame from a scalar requires an index"
  | some cs => .ok (fs.write g.dest_csv [("counter_sents", cs)], g)

/-- The two console lines printed for one (original, counter) pair in
debug mode, lines 78-79. -/
def debugLine (p : String × String) : List String :=
  ["Original: " ++ p.1 ++ "\n\nCounter: " ++ p.2 ++ "\n",
   String.mk (List.replicate 100 (Char.ofNat 61))]

/-- pipeline(debug), lines 74-81: debug mode generates and prints the
zipped (sentence, counter) pairs without touching the filesystem; normal
mode generates then exports. zip of None raises TypeError. The returned
list of strings is the printed debug output. -/
def PolyjuiceGenerator.pipeline (perturb : String → Nat → List String)
    (fs : FS) (g : PolyjuiceGenerator) (debug : Bool) :
    Except String (FS × List String × PolyjuiceGenerator) :=
  match debug with
  | true =>
    match g.generate_counterfactuals perturb with
    | .error e => .error e
    | .ok g2 =>
      match g2.counter_sentences with
      | none => .error "TypeError: zip argument 2 must support iteration"
      | some cs => .ok (fs, (g2.sentences.zip cs).flatMap debugLine, g2)
  | false =>
    match g.generate_counterfactuals perturb with
    | .error e => .error e
    | .ok g2 =>
      match g2.export_to_csv fs with
      | .error e => .error e
      | .ok (fs2, g3) => .ok (fs2, [], g3)

/-- The argparse result of parse_input, lines 84-101: source_csv and
source_col are required strings, dest_csv is optional, cuda is a
store_true flag and hence always a concrete boolean. -/
structure Args where
  source_csv : String
  source_col : String
  dest_csv : Option String
  cuda : Bool
  deriving Repr, DecidableEq

/-- Find the value following the first occurrence of either spelling of
an option flag in the argument vector. -/
def findOpt (shortFlag longFlag : String) : List String → Option String
  | [] => none
  | [_] => none
  | k :: v :: rest =>
    if k = shortFlag ∨ k = longFlag then some v
    else findOpt shortFlag longFlag (v :: rest)

/-- parse_input, lines 84-101: both required options must be present;
dest_csv is optional; cuda is true exactly when the --cuda flag appears. -/
def parse_input (argv : List String) : Option Args :=
  match findOpt "-s" "--source-csv" argv, findOpt "-c" "--source-col" argv with
  | some s, some c =>
    some { source_csv := s, source_col := c,
           dest_csv := findOpt "-d" "--dest-csv" argv,
           cuda := argv.contains "--cuda" }
  | _, _ => none

/-- How a full run of main ends: an early exit(1) from validation, an
uncaught exception, or normal completion. The filesystem component
records the files after the run. -/
inductive MainResult where
  | exitedEarly (code : Nat) (fs : FS)
  | crashed (exc : String) (fs : FS)
  | finished (fs : FS) (g : PolyjuiceGenerator)

/-- main(args), lines 104-112: construct the generator from the parsed
arguments (cuda is passed explicitly, never None) and run
pipeline(debug=False). -/
def main_run (fs : FS) (cuda_available : Bool)
    (perturb : String → Nat → List String) (a : Args) : MainResult :=
  match PolyjuiceGenerator.init fs cuda_available (some a.source_csv)
      (some a.source_col) a.dest_csv (some a.cuda) with
  | .exited c _ => .exitedEarly c fs
  | .raised e => .crashed e fs
  | .ok g =>
    match g.pipeline perturb fs false with
    | .error e => .crashed e fs
    | .ok (fs2, _, g2) => .finished fs2 g2

/-- A sample filesystem holding one input csv with a column text of two
rows, used by the witnesses. -/
def sampleFS : FS :=
  fun p => if p = "in.csv" then some [("text", ["t0", "t1"])] else none

/-- Running the loop from an actual list produces exactly one appended
edit per sentence, in input order. -/
theorem generateLoop_some (perturb : String → Nat → List String) :
    ∀ (ss : List String) (acc : List String),
      generateLoop perturb ss (some acc) =
        .ok (some (acc ++ ss.map (fun s => selectEdit (perturb s 1) s)))
  | [], acc => by simp [generateLoop]
  | s :: rest, acc => by
    simp only [generateLoop, pyAppend]
    rw [generateLoop_some perturb rest (acc ++ [selectEdit (perturb s 1) s])]
    simp

/-- Running the loop from None over a non-empty sentence list fails at
the first append. -/
theorem generateLoop_none (perturb : String → Nat → List String)
    (s : String) (rest : List String) :
    generateLoop perturb (s :: rest) none =
      .error "AttributeError: NoneType object has no attribute append" := rfl

/-- Inversion for a successful __init__: the three validations passed,
the column was found, and every field of the object is determined. -/
theorem init_ok_inv (fs : FS) (avail : Bool)
    (scsv scol dcsv : Option String) (cu : Option Bool)
    (g : PolyjuiceGenerator)
    (h : PolyjuiceGenerator.init fs avail scsv scol dcsv cu = .ok g) :
    ∃ src table col,
      scsv = some src ∧ fs src = some table ∧ scol = some col ∧
      table.lookupCol col = some g.sentences ∧
      g.cuda = cu.getD avail ∧
      g.dest_csv = dcsv.getD "polyjuice_edits.csv" ∧
      g.counter_sentences = none := by
  cases scsv with
  | none => simp [PolyjuiceGenerator.init] at h
  | some src =>
    simp only [PolyjuiceGenerator.init] at h
    cases hfs : fs src with
    | none => simp only [hfs] at h; exact absurd h (by simp)
    | some table =>
      simp only [hfs] at h
      cases scol with
      | none => simp at h
      | some col =>
        cases hcol : table.lookupCol col with
        | none => simp only [hcol] at h; exact absurd h (by simp)
        | some sents =>
          simp only [hcol, InitResult.ok.injEq] at h
          subst h
          refine ⟨src, table, col, rfl, hfs, rfl, hcol, ?_, ?_, rfl⟩
          · cases cu <;> rfl
          · cases dcsv <;> rfl

/-- Every successful __init__ leaves counter_sentences set to None. -/
theorem init_ok_counter_none (fs : FS) (avail : Bool)
    (scsv scol dcsv : Option String) (cu : Option Bool)
    (g : PolyjuiceGenerator)
    (h : PolyjuiceGenerator.init fs avail scsv scol dcsv cu = .ok g) :
    g.counter_sentences = none := by
  obtain ⟨-, -, -, -, -, -, -, -, -, hcn⟩ :=
    init_ok_inv fs avail scsv scol dcsv cu g h
  exact hcn

/-- C3: a generator constructed by __init__ has counter_sentences = None,
and the first call to generate_counterfactuals on it with a non-empty
sentence list fails at runtime with an AttributeError from appending to
None, whatever the model returns. -/
theorem first_generate_after_init_fails (fs : FS) (avail : Bool)
    (scsv scol dcsv : Option String) (cu : Option Bool)
    (g : PolyjuiceGenerator)
    (h : PolyjuiceGenerator.init fs avail scsv scol dcsv cu = .ok g)
    (hne : g.sentences ≠ []) (perturb : String → Nat → List String) :
    g.counter_sentences = none ∧
      g.generate_counterfactuals perturb =
        .error "AttributeError: NoneType object has no attribute append" := by
  have hcn : g.counter_sentences = none :=
    init_ok_counter_none fs avail scsv scol dcsv cu g h
  refine ⟨hcn, ?_⟩
  unfold PolyjuiceGenerator.generate_counterfactuals
  rw [hcn]
  cases hs : g.sentences with
  | nil => exact absurd hs hne
  | cons s rest => rw [generateLoop_none]

/-- Witness for C3 at a concrete input: the generator that __init__
builds from sampleFS has counter_sentences = None and its first
generate_counterfactuals call fails. -/
theorem first_generate_after_init_fails_witness :
    (⟨["t0", "t1"], false, "polyjuice_edits.csv", none⟩ :
        PolyjuiceGenerator).counter_sentences = none ∧
      PolyjuiceGenerator.generate_counterfactuals (fun _ _ => ["edit"])
        ⟨["t0", "t1"], false, "polyjuice_edits.csv", none⟩ =
        .error "AttributeError: NoneType object has no attribute append" :=
  first_generate_after_init_fails sampleFS false (some "in.csv") (some "text")
    none none ⟨["t0", "t1"], false, "polyjuice_edits.csv", none⟩ (by decide)
    (by decide) (fun _ _ => ["edit"])

/-- C1: on the end-to-end example of the spec (one input sentence, the
model successfully returning one candidate) generate_counterfactuals
produces no output record set at all: it stops with an AttributeError,
so the output does not have one entry per input sentence. -/
theorem generate_produces_no_output_on_valid_run :
    PolyjuiceGenerator.generate_counterfactuals
        (fun _ _ => ["The movie was terrible"])
        ⟨["The movie was great"], false, "polyjuice_edits.csv", none⟩ =
      .error "AttributeError: NoneType object has no attribute append" := rfl

/-- C2: on a freshly constructed generator the per-sentence outputs never
materialize: whether the model returns candidates or an empty list for
the single input sentence, generate_counterfactuals raises instead of
recording the first candidate or the original sentence. -/
theorem per_sentence_selection_never_recorded :
    (PolyjuiceGenerator.generate_counterfactuals (fun _ _ => ["cand one"])
        ⟨["s0"], false, "polyjuice_edits.csv", none⟩ =
      .error "AttributeError: NoneType object has no attribute append") ∧
    (PolyjuiceGenerator.generate_counterfactuals (fun _ _ => [])
        ⟨["s0"], false, "polyjuice_edits.csv", none⟩ =
      .error "AttributeError: NoneType object has no attribute append") :=
  ⟨rfl, rfl⟩

/-- A successful generate_counterfactuals only replaces
counter_sentences; every other field is carried over from self. -/
theorem generate_ok_fields (perturb : String → Nat → List String)
    (g g2 : PolyjuiceGenerator)
    (h : g.generate_counterfactuals perturb = .ok g2) :
    g2.sentences = g.sentences ∧ g2.dest_csv = g.dest_csv ∧
      g2.cuda = g.cuda := by
  unfold PolyjuiceGenerator.generate_counterfactuals at h
  cases hl : generateLoop perturb g.sentences g.counter_sentences with
  | error e => rw [hl] at h; exact absurd h (by simp)
  | ok cs =>
    rw [hl] at h
    simp only [Except.ok.injEq] at h
    subst h
    exact ⟨rfl, rfl, rfl⟩

/-- A successful export_to_csv returns self unchanged. -/
theorem export_ok_self (g : PolyjuiceGenerator) (fs : FS) (fs2 : FS)
    (g2 : PolyjuiceGenerator) (h : g.export_to_csv fs = .ok (fs2, g2)) :
    g2 = g := by
  unfold PolyjuiceGenerator.export_to_csv at h
  cases hcs : g.counter_sentences with
  | none => rw [hcs] at h; exact absurd h (by simp)
  | some cs =>
    rw [hcs] at h
    simp only [Except.ok.injEq, Prod.mk.injEq] at h
    exact h.2.symm

/-- Inversion of pipeline in normal mode: a successful run factors as a
successful generate_counterfactuals followed by a successful
export_to_csv, and prints no debug pairs. -/
theorem pipeline_false_inv (perturb : String → Nat → List String)
    (fs : FS) (g : PolyjuiceGenerator) (fs2 : FS) (out : List String)
    (g3 : PolyjuiceGenerator)
    (h : PolyjuiceGenerator.pipeline perturb fs g false = .ok (fs2, out, g3)) :
    ∃ g2, g.generate_counterfactuals perturb = .ok g2 ∧
      g2.export_to_csv fs = .ok (fs2, g3) ∧ out = [] := by
  simp only [PolyjuiceGenerator.pipeline] at h
  cases hg : g.generate_counterfactuals perturb with
  | error e => simp only [hg] at h; exact absurd h (by simp)
  | ok g2 =>
    simp only [hg] at h
    cases he : g2.export_to_csv fs with
    | error e => simp only [he] at h; exact absurd h (by simp)
    | ok p =>
      obtain ⟨fs2x, g3x⟩ := p
      simp only [he] at h
      simp only [Except.ok.injEq, Prod.mk.injEq] at h
      obtain ⟨h1, h2, h3⟩ := h
      exact ⟨g2, rfl, by rw [he, h1, h3], h2.symm⟩

/-- C4: construction validates its inputs in order: a missing source_csv
argument, a source file that does not exist, and a missing source_col
argument each print the exact error message and terminate with exit code
1; in the missing-file case a whole run of main leaves the filesystem
untouched, so no output file is produced. -/
theorem init_validates_and_exits (fs : FS) (avail : Bool)
    (scol dcsv : Option String) (cu : Option Bool)
    (perturb : String → Nat → List String) :
    (PolyjuiceGenerator.init fs avail none scol dcsv cu =
        .exited 1 "[ERROR]: source_csv must be specified") ∧
    (∀ src, fs src = none →
      PolyjuiceGenerator.init fs avail (some src) scol dcsv cu =
        .exited 1 ("[ERROR]: file " ++ src ++ " does not exist")) ∧
    (∀ src t, fs src = some t →
      PolyjuiceGenerator.init fs avail (some src) none dcsv cu =
        .exited 1 "[ERROR]: source_col must be specified") ∧
    (∀ a : Args, fs a.source_csv = none →
      main_run fs avail perturb a = .exitedEarly 1 fs) := by
  refine ⟨rfl, ?_, ?_, ?_⟩
  · intro src hsrc
    simp [PolyjuiceGenerator.init, hsrc]
  · intro src t hsrc
    simp [PolyjuiceGenerator.init, hsrc]
  · intro a ha
    simp [main_run, PolyjuiceGenerator.init, ha]

/-- Witness for C4: running main on arguments naming a file absent from
sampleFS exits with code 1 and the untouched filesystem. -/
theorem init_validates_and_exits_witness :
    main_run sampleFS false (fun _ _ => []) ⟨"missing.csv", "text", none, false⟩ =
      .exitedEarly 1 sampleFS :=
  (init_validates_and_exits sampleFS false (some "text") none (some false)
      (fun _ _ => [])).2.2.2 ⟨"missing.csv", "text", none, false⟩ (by decide)

/-- C5: when counter_sentences holds the output list, export_to_csv
writes to dest_csv a table with the single column counter_sents whose
rows are exactly the output strings in order, overwriting whatever the
filesystem had at that path and leaving every other path unchanged. -/
theorem export_writes_single_column (g : PolyjuiceGenerator) (fs : FS)
    (cs : List String) (h : g.counter_sentences = some cs) :
    (g.export_to_csv fs =
      .ok (FS.write fs g.dest_csv [("counter_sents", cs)], g)) ∧
    (FS.write fs g.dest_csv [("counter_sents", cs)] g.dest_csv =
      some [("counter_sents", cs)]) ∧
    (∀ q, q ≠ g.dest_csv →
      FS.write fs g.dest_csv [("counter_sents", cs)] q = fs q) := by
  refine ⟨?_, ?_, ?_⟩
  · unfold PolyjuiceGenerator.export_to_csv
    rw [h]
  · simp [FS.write]
  · intro q hq
    simp [FS.write, hq]

/-- Witness for C5 at a concrete generator over sampleFS (which already
has a file at the destination path in.csv, so the write overwrites). -/
theorem export_writes_single_column_witness :
    (PolyjuiceGenerator.export_to_csv ⟨["a", "b"], false, "in.csv", some ["x", "y"]⟩
        sampleFS =
      .ok (FS.write sampleFS "in.csv" [("counter_sents", ["x", "y"])],
        ⟨["a", "b"], false, "in.csv", some ["x", "y"]⟩)) ∧
    (FS.write sampleFS "in.csv" [("counter_sents", ["x", "y"])] "in.csv" =
      some [("counter_sents", ["x", "y"])]) :=
  ⟨(export_writes_single_column ⟨["a", "b"], false, "in.csv", some ["x", "y"]⟩
      sampleFS ["x", "y"] rfl).1,
   (export_writes_single_column ⟨["a", "b"], false, "in.csv", some ["x", "y"]⟩
      sampleFS ["x", "y"] rfl).2.1⟩

/-- Inversion of pipeline in debug mode: a successful run returns the
filesystem untouched and prints the zipped pairs. -/
theorem pipeline_true_inv (perturb : String → Nat → List String)
    (fs : FS) (g : PolyjuiceGenerator) (fs2 : FS) (out : List String)
    (g2 : PolyjuiceGenerator)
    (h : PolyjuiceGenerator.pipeline perturb fs g true = .ok (fs2, out, g2)) :
    fs2 = fs ∧ g.generate_counterfactuals perturb = .ok g2 ∧
      ∃ cs, g2.counter_sentences = some cs ∧
        out = (g2.sentences.zip cs).flatMap debugLine := by
  simp only [PolyjuiceGenerator.pipeline] at h
  cases hg : g.generate_counterfactuals perturb with
  | error e => simp only [hg] at h; exact absurd h (by simp)
  | ok gx =>
    simp only [hg] at h
    cases hcs : gx.counter_sentences with
    | none => simp only [hcs] at h; exact absurd h (by simp)
    | some cs =>
      simp only [hcs] at h
      simp only [Except.ok.injEq, Prod.mk.injEq] at h
      obtain ⟨h1, h2, h3⟩ := h
      subst h3
      exact ⟨h1.symm, rfl, cs, hcs, h2.symm⟩

/-- Running pipeline in debug mode from an empty output accumulator:
generation succeeds, the filesystem comes back untouched, and the
printed pairs are the sentences zipped with their selected edits. -/
theorem pipeline_true_run (perturb : String → Nat → List String)
    (fs : FS) (g : PolyjuiceGenerator)
    (hcs : g.counter_sentences = some []) :
    PolyjuiceGenerator.pipeline perturb fs g true =
      .ok (fs,
        (g.sentences.zip (selectedEdits perturb g.sentences)).flatMap debugLine,
        { g with counter_sentences := some (selectedEdits perturb g.sentences) }) := by
  have hg : g.generate_counterfactuals perturb =
      .ok { g with counter_sentences := some (selectedEdits perturb g.sentences) } := by
    unfold PolyjuiceGenerator.generate_counterfactuals
    rw [hcs, generateLoop_some]
    simp [selectedEdits]
  simp only [PolyjuiceGenerator.pipeline, hg]

/-- C6: in debug mode, a completed pipeline leaves the filesystem
exactly as it was and prints the (original, counterfactual) pairs zipped
in input order; starting from an empty output accumulator the printed
pairs are precisely each sentence with its selected edit; with debug
disabled, a completed pipeline is generation followed by export. -/
theorem pipeline_debug_frame (perturb : String → Nat → List String)
    (fs : FS) (g : PolyjuiceGenerator) :
    (∀ fs2 out g2,
      PolyjuiceGenerator.pipeline perturb fs g true = .ok (fs2, out, g2) →
        fs2 = fs ∧ ∃ cs, g2.counter_sentences = some cs ∧
          out = (g2.sentences.zip cs).flatMap debugLine) ∧
    (g.counter_sentences = some [] →
      PolyjuiceGenerator.pipeline perturb fs g true =
        .ok (fs,
          (g.sentences.zip (selectedEdits perturb g.sentences)).flatMap debugLine,
          { g with counter_sentences := some (selectedEdits perturb g.sentences) })) ∧
    (∀ fs2 out g3,
      PolyjuiceGenerator.pipeline perturb fs g false = .ok (fs2, out, g3) →
        ∃ g2, g.generate_counterfactuals perturb = .ok g2 ∧
          g2.export_to_csv fs = .ok (fs2, g3)) := by
  refine ⟨?_, ?_, ?_⟩
  · intro fs2 out g2 h
    obtain ⟨h1, -, h3⟩ := pipeline_true_inv perturb fs g fs2 out g2 h
    exact ⟨h1, h3⟩
  · intro hcs
    exact pipeline_true_run perturb fs g hcs
  · intro fs2 out g3 h
    obtain ⟨g2, hg, he, -⟩ := pipeline_false_inv perturb fs g fs2 out g3 h
    exact ⟨g2, hg, he⟩

/-- Witness for C6: a one-sentence debug run over sampleFS returns
sampleFS unchanged and prints the pair lines for the single sentence. -/
theorem pipeline_debug_frame_witness :
    PolyjuiceGenerator.pipeline (fun s _ => [String.append s "!"]) sampleFS
        ⟨["a"], false, "o.csv", some []⟩ true =
      .ok (sampleFS,
        ["Original: a\n\nCounter: a!\n",
         String.mk (List.replicate 100 (Char.ofNat 61))],
        ⟨["a"], false, "o.csv", some ["a!"]⟩) :=
  (pipeline_debug_frame (fun s _ => [String.append s "!"]) sampleFS
    ⟨["a"], false, "o.csv", some []⟩).2.1 rfl

/-- C7: the device stored in cuda is the explicitly passed flag when one
is given and torch availability otherwise; parse_input always produces a
concrete boolean flag (true exactly when --cuda appears), and every run
of main that completes carries exactly the parsed flag as its device. -/
theorem device_selection (fs : FS) (avail : Bool)
    (scsv scol dcsv : Option String) :
    (∀ b g, PolyjuiceGenerator.init fs avail scsv scol dcsv (some b) = .ok g →
      g.cuda = b) ∧
    (∀ g, PolyjuiceGenerator.init fs avail scsv scol dcsv none = .ok g →
      g.cuda = avail) ∧
    (∀ argv a, parse_input argv = some a → a.cuda = argv.contains "--cuda") ∧
    (∀ perturb a fs2 g2, main_run fs avail perturb a = .finished fs2 g2 →
      g2.cuda = a.cuda) := by
  refine ⟨?_, ?_, ?_, ?_⟩
  · intro b g h
    obtain ⟨-, -, -, -, -, -, -, hcu, -, -⟩ :=
      init_ok_inv fs avail scsv scol dcsv (some b) g h
    exact hcu
  · intro g h
    obtain ⟨-, -, -, -, -, -, -, hcu, -, -⟩ :=
      init_ok_inv fs avail scsv scol dcsv none g h
    exact hcu
  · intro argv a h
    unfold parse_input at h
    cases h1 : findOpt "-s" "--source-csv" argv with
    | none => simp only [h1] at h; exact absurd h (by simp)
    | some s =>
      cases h2 : findOpt "-c" "--source-col" argv with
      | none => simp only [h1, h2] at h; exact absurd h (by simp)
      | some c =>
        simp only [h1, h2, Option.some.injEq] at h
        subst h
        rfl
  · intro perturb a fs2 g2 h
    unfold main_run at h
    cases hi : PolyjuiceGenerator.init fs avail (some a.source_csv)
        (some a.source_col) a.dest_csv (some a.cuda) with
    | exited c m => simp only [hi] at h; exact MainResult.noConfusion h
    | raised e => simp only [hi] at h; exact MainResult.noConfusion h
    | ok g0 =>
      simp only [hi] at h
      cases hp : PolyjuiceGenerator.pipeline perturb fs g0 false with
      | error e => simp only [hp] at h; exact MainResult.noConfusion h
      | ok p =>
        obtain ⟨fs2x, out, g2x⟩ := p
        simp only [hp] at h
        injection h with hfsx hg2x
        obtain ⟨gm, hg, he, -⟩ := pipeline_false_inv perturb fs g0 fs2x out g2x hp
        have h1 : gm.cuda = g0.cuda := (generate_ok_fields perturb g0 gm hg).2.2
        have h2 : g2x = gm := export_ok_self gm fs fs2x g2x he
        have h0 : g0.cuda = a.cuda := by
          obtain ⟨-, -, -, -, -, -, -, hcu, -, -⟩ :=
            init_ok_inv fs avail (some a.source_csv) (some a.source_col)
              a.dest_csv (some a.cuda) g0 hi
          exact hcu
        rw [← hg2x, h2, h1, h0]

/-- Witness for C7: an explicit true flag is stored as the device, and
parsing an argument vector containing --cuda yields the flag true. -/
theorem device_selection_witness :
    ((⟨["t0", "t1"], true, "polyjuice_edits.csv", none⟩ :
        PolyjuiceGenerator).cuda = true) ∧
    ((⟨"in.csv", "text", none, true⟩ : Args).cuda =
      ["-s", "in.csv", "-c", "text", "--cuda"].contains "--cuda") :=
  ⟨(device_selection sampleFS false (some "in.csv") (some "text") none).1 true
      ⟨["t0", "t1"], true, "polyjuice_edits.csv", none⟩ (by decide),
   (device_selection sampleFS false (some "in.csv") (some "text") none).2.2.1
      ["-s", "in.csv", "-c", "text", "--cuda"] ⟨"in.csv", "text", none, true⟩
      (by decide)⟩

/-- C8: a generator built without a destination path stores the default
polyjuice_edits.csv, and one built with an explicit path stores exactly
that path. -/
theorem dest_path_default (fs : FS) (avail : Bool)
    (scsv scol : Option String) (cu : Option Bool) :
    (∀ g, PolyjuiceGenerator.init fs avail scsv scol none cu = .ok g →
      g.dest_csv = "polyjuice_edits.csv") ∧
    (∀ d g, PolyjuiceGenerator.init fs avail scsv scol (some d) cu = .ok g →
      g.dest_csv = d) := by
  constructor
  · intro g h
    obtain ⟨-, -, -, -, -, -, -, -, hd, -⟩ :=
      init_ok_inv fs avail scsv scol none cu g h
    exact hd
  · intro d g h
    obtain ⟨-, -, -, -, -, -, -, -, hd, -⟩ :=
      init_ok_inv fs avail scsv scol (some d) cu g h
    exact hd

/-- Witness for C8: construction over sampleFS with no destination path
stores polyjuice_edits.csv; with destination out.csv it stores out.csv. -/
theorem dest_path_default_witness :
    ((⟨["t0", "t1"], false, "polyjuice_edits.csv", none⟩ :
        PolyjuiceGenerator).dest_csv = "polyjuice_edits.csv") ∧
    ((⟨["t0", "t1"], false, "out.csv", none⟩ :
        PolyjuiceGenerator).dest_csv = "out.csv") :=
  ⟨(dest_path_default sampleFS false (some "in.csv") (some "text") none).1
      ⟨["t0", "t1"], false, "polyjuice_edits.csv", none⟩ (by decide),
   (dest_path_default sampleFS false (some "in.csv") (some "text") none).2
      "out.csv" ⟨["t0", "t1"], false, "out.csv", none⟩ (by decide)⟩

/-- C9: when the source file exists but lacks the named column,
construction raises a KeyError that propagates; it does not take the
printed-error exit-code-1 path. -/
theorem missing_column_raises (fs : FS) (avail : Bool) (src col : String)
    (t : Table) (dcsv : Option String) (cu : Option Bool)
    (hfs : fs src = some t) (hcol : t.lookupCol col = none) :
    (PolyjuiceGenerator.init fs avail (some src) (some col) dcsv cu =
      .raised ("KeyError: " ++ col)) ∧
    (∀ c m, PolyjuiceGenerator.init fs avail (some src) (some col) dcsv cu ≠
      .exited c m) := by
  have h : PolyjuiceGenerator.init fs avail (some src) (some col) dcsv cu =
      .raised ("KeyError: " ++ col) := by
    simp [PolyjuiceGenerator.init, hfs, hcol]
  exact ⟨h, fun c m hc => by rw [h] at hc; exact InitResult.noConfusion hc⟩

/-- Witness for C9: asking sampleFS for the absent column missing raises
the KeyError. -/
theorem missing_column_raises_witness :
    PolyjuiceGenerator.init sampleFS false (some "in.csv") (some "missing")
        none none =
      .raised ("KeyError: " ++ "missing") :=
  (missing_column_raises sampleFS false "in.csv" "missing"
      [("text", ["t0", "t1"])] none none (by decide) (by decide)).1

/-- C10: a successful generate_counterfactuals changes no field other
than counter_sentences, and a successful export_to_csv returns the
object completely unchanged. -/
theorem methods_touch_only_counter (perturb : String → Nat → List String)
    (fs : FS) :
    (∀ (g g2 : PolyjuiceGenerator),
      g.generate_counterfactuals perturb = .ok g2 →
        g2.sentences = g.sentences ∧ g2.dest_csv = g.dest_csv ∧
          g2.cuda = g.cuda) ∧
    (∀ (g : PolyjuiceGenerator) (fs2 : FS) (g2 : PolyjuiceGenerator),
      g.export_to_csv fs = .ok (fs2, g2) → g2 = g) :=
  ⟨fun g g2 h => generate_ok_fields perturb g g2 h,
   fun g fs2 g2 h => export_ok_self g fs fs2 g2 h⟩

/-- Witness for C10 on a concrete one-sentence generator: generation
keeps sentences, dest_csv and cuda, and export returns the object as
it was. -/
theorem methods_touch_only_counter_witness :
    ((⟨["a"], true, "o.csv", some ["e"]⟩ : PolyjuiceGenerator).sentences =
        (⟨["a"], true, "o.csv", some []⟩ : PolyjuiceGenerator).sentences ∧
      (⟨["a"], true, "o.csv", some ["e"]⟩ : PolyjuiceGenerator).dest_csv =
        (⟨["a"], true, "o.csv", some []⟩ : PolyjuiceGenerator).dest_csv ∧
      (⟨["a"], true, "o.csv", some ["e"]⟩ : PolyjuiceGenerator).cuda =
        (⟨["a"], true, "o.csv", some []⟩ : PolyjuiceGenerator).cuda) ∧
    ((⟨["a"], true, "o.csv", some ["e"]⟩ : PolyjuiceGenerator) =
      ⟨["a"], true, "o.csv", some ["e"]⟩) :=
  ⟨(methods_touch_only_counter (fun _ _ => ["e"]) sampleFS).1
      ⟨["a"], true, "o.csv", some []⟩ ⟨["a"], true, "o.csv", some ["e"]⟩ rfl,
   (methods_touch_only_counter (fun _ _ => ["e"]) sampleFS).2
      ⟨["a"], true, "o.csv", some ["e"]⟩
      (FS.write sampleFS "o.csv" [("counter_sents", ["e"])])
      ⟨["a"], true, "o.csv", some ["e"]⟩ rfl⟩
